import Mathlib

/-!
Verification of the operator-replacement plan-rewrite engine
(src/packages/operator-replacement/duckdb_operator_replacement.cpp).

The development shallowly embeds the core of the extension:

* the replacement registry (RegisterReplacement / ClearReplacements /
  GetReplacements, lines 15-26);
* the per-expression substitution performed inside the callback passed to
  LogicalOperatorVisitor.EnumerateExpressions (lines 44-129), transcribed
  step by step as tryRewrite;
* the operator-tree recursion ReplaceOperators (lines 38-135) and the
  Optimize entry point with its empty-registry fast path (lines 28-36).

External collaborators that live in the host engine (catalog entry lookup,
overload resolution, bind callbacks, cast construction, expression
enumeration) are modelled at the interface boundary the spec gives for
them, as fields of a Ctx value or as spec-modelled definitions.
-/

namespace OperatorReplacement

/-- Logical types are identified by name only; the rewrite engine compares
them solely for equality (e.g. "INTEGER", "DECIMAL(15,2)"). -/
abbrev LogicalType := String

/-- Catalog entry kinds relevant to the engine: line 61 constrains the
lookup to scalar functions and line 65 re-checks the returned kind. -/
inductive CatalogType where
  | SCALAR_FUNCTION_ENTRY
  | TABLE_FUNCTION_ENTRY
  | OTHER_ENTRY
deriving DecidableEq, Repr

/-- A resolved scalar-function overload: name, declared parameter types,
declared return type, and an optional bind callback (identified by a key
into the context, since callbacks are host-supplied code). Mirrors the
fields of duckdb ScalarFunction that lines 79-111 read. -/
structure ScalarFunction where
  name : String
  arguments : List LogicalType
  returnType : LogicalType
  bind : Option Nat
deriving DecidableEq, Repr

/-- A catalog entry: its kind plus, for scalar-function entries, the
overload set consulted by GetFunctionByArguments (line 79). -/
structure CatalogEntry where
  type : CatalogType
  functions : List ScalarFunction
deriving DecidableEq, Repr

/-- Outcomes of overload resolution. GetFunctionByArguments either signals
that no overload is compatible with the argument types, or fails with some
internal error; both surface as C++ exceptions at line 79. -/
inductive ResolveErr where
  | noCompatibleOverload
  | internalError
deriving DecidableEq, Repr

/-- Bound expression nodes, the tagged variants the engine inspects:
constants, column references, function calls (with descriptor, resolved
return type, optional opaque bind-time state, and owned argument
subtrees), and casts. -/
inductive Expr where
  | const (ty : LogicalType) (val : Int)
  | columnRef (ty : LogicalType) (idx : Nat)
  | call (func : ScalarFunction) (returnType : LogicalType)
      (bindInfo : Option Nat) (children : List Expr)
  | cast (target : LogicalType) (child : Expr)
deriving Repr

/-- Return type carried by an expression node, as read through
child.return_type at lines 71 and 90. -/
def Expr.returnType : Expr → LogicalType
  | .const ty _ => ty
  | .columnRef ty _ => ty
  | .call _ rt _ _ => rt
  | .cast t _ => t

/-- An operator node of the bound logical plan: its expression slots (the
unique_ptr slots handed to the enumeration callback, hence possibly null)
and its child-operator slots (unique_ptr children, possibly null). -/
inductive LogicalOperator where
  | mk (expressions : List (Option Expr)) (children : List (Option LogicalOperator))
deriving Repr

/-- Name of the schema the replacement lookup is pinned to (line 62 passes
DEFAULT_SCHEMA, which duckdb defines as "main"). -/
def DEFAULT_SCHEMA : String := "main"

/-- The host context the engine threads through: which catalog is the
system catalog, entry lookup keyed by catalog name, schema and entry name
(GetSystemCatalog + GetEntry with RETURN_NULL never raises for a plain
miss), overload resolution over an overload set, and the table of
host-supplied bind callbacks, which may themselves fail. -/
structure Ctx where
  systemCatalogName : String
  catalogs : String → String → String → Option CatalogEntry
  resolve : List ScalarFunction → List LogicalType → Except ResolveErr ScalarFunction
  bindImpl : Nat → ScalarFunction → List Expr → Except Unit (Option Nat)

/-- The replacement registry: the static unordered_map from original
function name to replacement name (line 13). Modelled as an association
list whose keys are kept unique by the insert operation. -/
abbrev Registry := List (String × String)

/-- Lookup in the registry, the replacement_registry.find of line 56. -/
def Registry.find : Registry → String → Option String
  | [], _ => none
  | (a, b) :: rest, k => if a = k then some b else Registry.find rest k

/-- RegisterReplacement (lines 15-18): unconditional upsert, so the key is
erased first and the new pair placed in front; last write wins. -/
def Registry.register (r : Registry) (originalName replacementName : String) : Registry :=
  (originalName, replacementName) :: r.filter (fun p => p.1 ≠ originalName)

/-- ClearReplacements (lines 20-22): the registry becomes empty. -/
def Registry.clear (_ : Registry) : Registry := []

/-- AddCastToType (lines 91 and 120): modelled from the spec: the host's
type-conversion insertion returns an expression producing the target type,
and is a no-op when the source type already equals the target. -/
def addCastToType (e : Expr) (target : LogicalType) : Expr :=
  if e.returnType = target then e else .cast target e

/-- The child-cast loop of lines 89-94: for each index below both the
child count and the declared parameter count, a child whose return type
differs from the declared parameter type is replaced by a cast to that
parameter type; children beyond the parameter list are untouched. -/
def castChildren : List Expr → List LogicalType → List Expr
  | [], _ => []
  | cs, [] => cs
  | c :: cs, p :: ps =>
      (if c.returnType ≠ p then addCastToType c p else c) :: castChildren cs ps

/-- The re-bind step of lines 107-111: when the new descriptor defines a
bind callback, invoke it with the (possibly cast-adjusted) children and
take its result as the new bind-time state; otherwise the state is null.
The callback may fail, which in C++ is an exception thrown at line 108. -/
def bindStep (ctx : Ctx) (f : ScalarFunction) (children : List Expr) :
    Except Unit (Option Nat) :=
  match f.bind with
  | some bid => ctx.bindImpl bid f children
  | none => .ok none

/-- The body of the enumeration callback (lines 49-128) acting on one
expression slot. Only function-call nodes are touched (line 52). A name
miss in the registry (line 57), a missing or non-scalar catalog entry
(line 65), or a failing overload resolution (line 79, caught at line 123
before any mutation) all leave the node unchanged. On a resolved overload
the children are cast-adjusted (89-94), the descriptor and return type are
replaced (98-99), the bind step is run (107-111), and a changed return
type is compensated by an outer cast back to the original type (119-122).
A bind-callback failure is also caught at line 123, but only after the
child casts and the descriptor/return-type replacement have already been
applied in place: those mutations persist, the bind-time state is left as
it was and no outer cast is installed. -/
def tryRewrite (ctx : Ctx) (reg : Registry) (e : Expr) : Expr :=
  match e with
  | .call func rt bi children =>
    match reg.find func.name with
    | none => .call func rt bi children
    | some replacementName =>
      match ctx.catalogs ctx.systemCatalogName DEFAULT_SCHEMA replacementName with
      | none => .call func rt bi children
      | some entry =>
        if entry.type = CatalogType.SCALAR_FUNCTION_ENTRY then
          match ctx.resolve entry.functions (children.map Expr.returnType) with
          | .error _ => .call func rt bi children
          | .ok rf =>
            let newChildren := castChildren children rf.arguments
            match bindStep ctx rf newChildren with
            | .error _ => .call rf rf.returnType bi newChildren
            | .ok newBI =>
              if rt ≠ rf.returnType then
                addCastToType (.call rf rf.returnType newBI newChildren) rt
              else
                .call rf rf.returnType newBI newChildren
        else .call func rt bi children
  | e => e

mutual

/-- Modelled from the spec: LogicalOperatorVisitor.EnumerateExpressions
(line 44) lives in the host engine and is not part of this repository; per
the spec it enumerates every function-call expression reachable from the
operator's expression set, including nested calls, each visited
independently. We model this as a bottom-up visit that applies the
callback body at every node after visiting its subexpressions, so that a
call argument that is itself a call is itself replaced. -/
def visitExpr (ctx : Ctx) (reg : Registry) : Expr → Expr
  | .const t v => tryRewrite ctx reg (.const t v)
  | .columnRef t i => tryRewrite ctx reg (.columnRef t i)
  | .cast t c => tryRewrite ctx reg (.cast t (visitExpr ctx reg c))
  | .call f rt bi children =>
      tryRewrite ctx reg (.call f rt bi (visitExprList ctx reg children))

/-- Visits each expression of an argument list (part of the spec-modelled
enumeration). -/
def visitExprList (ctx : Ctx) (reg : Registry) : List Expr → List Expr
  | [] => []
  | e :: es => visitExpr ctx reg e :: visitExprList ctx reg es

end

/-- The null guard at the top of the enumeration callback (lines 45-47):
an empty expression slot is skipped, a non-empty one is visited. -/
def visitSlot (ctx : Ctx) (reg : Registry) : Option Expr → Option Expr
  | none => none
  | some e => some (visitExpr ctx reg e)

/-- All expression slots of one operator, in order. -/
def visitSlots (ctx : Ctx) (reg : Registry) : List (Option Expr) → List (Option Expr)
  | [] => []
  | s :: ss => visitSlot ctx reg s :: visitSlots ctx reg ss

mutual

/-- ReplaceOperators on a non-null operator (lines 43-134): rewrite this
operator's expression slots, then recurse into every child slot. -/
def replaceOp (ctx : Ctx) (reg : Registry) : LogicalOperator → LogicalOperator
  | .mk exprs children =>
      .mk (visitSlots ctx reg exprs) (replaceChildren ctx reg children)

/-- The child loop of lines 131-134, each child going back through the
null guard of lines 39-41. -/
def replaceChildren (ctx : Ctx) (reg : Registry) :
    List (Option LogicalOperator) → List (Option LogicalOperator)
  | [] => []
  | none :: rest => none :: replaceChildren ctx reg rest
  | some c :: rest => some (replaceOp ctx reg c) :: replaceChildren ctx reg rest

end

/-- ReplaceOperators (lines 38-41): a null operator pointer returns
immediately with no effect. -/
def replaceOperators (ctx : Ctx) (reg : Registry) :
    Option LogicalOperator → Option LogicalOperator
  | none => none
  | some op => some (replaceOp ctx reg op)

/-- Optimize (lines 28-36): when the registry is empty the pass returns at
once without walking the plan; otherwise it runs ReplaceOperators on the
plan root. -/
def optimize (ctx : Ctx) (reg : Registry) (plan : Option LogicalOperator) :
    Option LogicalOperator :=
  if reg = [] then plan else replaceOperators ctx reg plan

/-- An expression nested n levels inside unary calls to a wrapper
function, used to exercise the recursion-coverage claim. -/
def nestExpr (w : ScalarFunction) (wt : LogicalType) : Nat → Expr → Expr
  | 0, e => e
  | n + 1, e => .call w wt none [nestExpr w wt n e]

/-- An operator nested m levels inside single-child operators with no
expressions of their own. -/
def nestOp : Nat → LogicalOperator → LogicalOperator
  | 0, inner => inner
  | m + 1, inner => .mk [] [some (nestOp m inner)]

/-! Concrete sample instances used to evaluate the engine on closed
inputs: a decimal-typed original function f replaced by custom_f with a
wider decimal parameter, a wider return type and a bind callback (key 7),
and a two-argument g replaced by custom_g whose second parameter type
matches the call exactly. -/

/-- Sample decimal type of the original call site. -/
def tDec15 : LogicalType := "DECIMAL(15,2)"

/-- Sample decimal type declared by the replacement. -/
def tDec18 : LogicalType := "DECIMAL(18,4)"

/-- Sample integer type. -/
def tInt : LogicalType := "INTEGER"

/-- Descriptor of the original function f bound at the call site. -/
def origFn : ScalarFunction := ⟨"f", [tDec15], tDec15, none⟩

/-- Descriptor of the replacement custom_f: wider parameter and return
type than f, and a bind callback registered under key 7. -/
def repFn : ScalarFunction := ⟨"custom_f", [tDec18], tDec18, some 7⟩

/-- Catalog entry for custom_f. -/
def repEntry : CatalogEntry := ⟨.SCALAR_FUNCTION_ENTRY, [repFn]⟩

/-- Descriptor of the original two-argument function g. -/
def origG : ScalarFunction := ⟨"g", [tDec15, tInt], tDec15, none⟩

/-- Descriptor of the replacement custom_g: first parameter type differs
from the call, second matches exactly; no bind callback. -/
def repG : ScalarFunction := ⟨"custom_g", [tDec18, tInt], tDec18, none⟩

/-- Catalog entry for custom_g. -/
def repGEntry : CatalogEntry := ⟨.SCALAR_FUNCTION_ENTRY, [repG]⟩

/-- A catalog entry that is not a scalar function. -/
def tableEntry : CatalogEntry := ⟨.TABLE_FUNCTION_ENTRY, []⟩

/-- Argument of the sample call to f. -/
def sampleArg : Expr := .const tDec15 3

/-- The sample call to f carrying bind-time state 99 from its original
binding. -/
def sampleCall : Expr := .call origFn tDec15 (some 99) [sampleArg]

/-- The sample call to g. -/
def sampleCallG : Expr := .call origG tDec15 none [.const tDec15 1, .const tInt 2]

/-- Sample registry mapping f to custom_f and g to custom_g. -/
def regSample : Registry := [("f", "custom_f"), ("g", "custom_g")]

/-- Catalog function of the sample host: custom_f and custom_g live in
the default schema of the system catalog and nowhere else. -/
def sampleCatalogs : String → String → String → Option CatalogEntry :=
  fun c s n =>
    if c = "system" then
      if s = DEFAULT_SCHEMA then
        if n = "custom_f" then some repEntry
        else if n = "custom_g" then some repGEntry
        else none
      else none
    else none

/-- Overload resolution of the sample host: the single overload of the
entry is compatible with every argument list. -/
def sampleResolve : List ScalarFunction → List LogicalType → Except ResolveErr ScalarFunction :=
  fun fns _ =>
    match fns with
    | [] => .error .noCompatibleOverload
    | g :: _ => .ok g

/-- Sample host context whose bind callback 7 succeeds producing bind
state 42. -/
def ctxSample : Ctx :=
  ⟨"system", sampleCatalogs, sampleResolve,
    fun bid _ _ => if bid = 7 then .ok (some 42) else .error ()⟩

/-- Host context in which no catalog lookup finds anything. -/
def ctxMiss : Ctx :=
  ⟨"system", fun _ _ _ => none, sampleResolve, fun _ _ _ => .error ()⟩

/-- Host context whose lookup yields an entry that is not a scalar
function. -/
def ctxWrongKind : Ctx :=
  ⟨"system", fun _ _ _ => some tableEntry, sampleResolve, fun _ _ _ => .error ()⟩

/-- Host context whose overload resolution reports no compatible
overload. -/
def ctxNoOverload : Ctx :=
  ⟨"system", sampleCatalogs, fun _ _ => .error .noCompatibleOverload,
    fun _ _ _ => .error ()⟩

/-- Host context whose overload resolution fails with an internal catalog
error rather than the expected no-compatible-overload outcome. -/
def ctxInternalErr : Ctx :=
  ⟨"system", sampleCatalogs, fun _ _ => .error .internalError,
    fun _ _ _ => .error ()⟩

/-- Host context whose bind callback fails. -/
def ctxBindFail : Ctx :=
  ⟨"system", sampleCatalogs, sampleResolve, fun _ _ _ => .error ()⟩

/-- Host context in which custom_f exists, but only under the schema
other_schema, not under the default schema of the system catalog. -/
def ctxOtherSchema : Ctx :=
  ⟨"system",
    fun c s n =>
      if c = "system" then
        if s = "other_schema" then
          if n = "custom_f" then some repEntry else none
        else none
      else none,
    sampleResolve, fun _ _ _ => .error ()⟩

/-- Unregistered wrapper function used to build nested expressions around
the sample call. -/
def wrapFn : ScalarFunction := ⟨"wrap", [tDec15], tDec15, none⟩

/-! Helper lemmas shared by the claim theorems. -/

/-- A call whose function name misses the registry is left unchanged. -/
theorem tryRewrite_not_registered (ctx : Ctx) (reg : Registry)
    (f : ScalarFunction) (rt : LogicalType) (bi : Option Nat) (children : List Expr)
    (hw : reg.find f.name = none) :
    tryRewrite ctx reg (.call f rt bi children) = .call f rt bi children := by
  simp [tryRewrite, hw]

/-- Shape of a fully successful substitution: registered name, scalar
entry found, overload resolved, bind step succeeded. -/
theorem tryRewrite_ok (ctx : Ctx) (reg : Registry)
    (f : ScalarFunction) (rt : LogicalType) (bi : Option Nat) (children : List Expr)
    (rn : String) (entry : CatalogEntry) (rf : ScalarFunction) (nbi : Option Nat)
    (h1 : reg.find f.name = some rn)
    (h2 : ctx.catalogs ctx.systemCatalogName DEFAULT_SCHEMA rn = some entry)
    (h3 : entry.type = CatalogType.SCALAR_FUNCTION_ENTRY)
    (h4 : ctx.resolve entry.functions (children.map Expr.returnType) = .ok rf)
    (h5 : bindStep ctx rf (castChildren children rf.arguments) = .ok nbi) :
    tryRewrite ctx reg (.call f rt bi children) =
      if rt ≠ rf.returnType then
        Expr.cast rt (.call rf rf.returnType nbi (castChildren children rf.arguments))
      else
        .call rf rf.returnType nbi (castChildren children rf.arguments) := by
  by_cases h : rt = rf.returnType
  · simp [tryRewrite, h1, h2, h3, h4, h5, h]
  · simp [tryRewrite, h1, h2, h3, h4, h5, h, addCastToType, Expr.returnType, Ne.symm h]

/-- Pointwise description of the child-cast loop at positions that carry
both a child and a declared parameter type. -/
theorem castChildren_get (cs : List Expr) (ps : List LogicalType) (i : Nat)
    (ci : Expr) (pi : LogicalType)
    (hci : cs.get? i = some ci) (hpi : ps.get? i = some pi) :
    (castChildren cs ps).get? i =
      some (if ci.returnType ≠ pi then Expr.cast pi ci else ci) := by
  induction cs generalizing ps i with
  | nil => simp at hci
  | cons c cs ih =>
    cases ps with
    | nil => simp at hpi
    | cons p ps =>
      cases i with
      | zero =>
        simp at hci hpi
        subst hci; subst hpi
        by_cases h : c.returnType = p
        · simp [castChildren, h]
        · simp [castChildren, h, addCastToType]
      | succ i =>
        simp only [List.get?] at hci hpi
        simpa [castChildren] using ih ps i hci hpi

/-- Positions of the child list beyond the declared parameter list are
left untouched by the child-cast loop. -/
theorem castChildren_get_beyond (cs : List Expr) (ps : List LogicalType) (i : Nat)
    (hpi : ps.length ≤ i) :
    (castChildren cs ps).get? i = cs.get? i := by
  induction cs generalizing ps i with
  | nil => simp [castChildren]
  | cons c cs ih =>
    cases ps with
    | nil => simp [castChildren]
    | cons p ps =>
      cases i with
      | zero => simp at hpi
      | succ i =>
        simp only [List.length_cons, Nat.succ_le_succ_iff] at hpi
        simpa [castChildren] using ih ps i hpi

/-- Visiting a tower of unregistered wrapper calls visits the expression
inside it. -/
theorem visitExpr_nestExpr (ctx : Ctx) (reg : Registry)
    (w : ScalarFunction) (wt : LogicalType) (n : Nat) (e : Expr)
    (hw : reg.find w.name = none) :
    visitExpr ctx reg (nestExpr w wt n e) = nestExpr w wt n (visitExpr ctx reg e) := by
  induction n with
  | zero => rfl
  | succ n ih =>
    rw [nestExpr, visitExpr, visitExprList, visitExprList, ih,
      tryRewrite_not_registered ctx reg w wt none _ hw, nestExpr]

/-- The operator recursion reaches an operator nested m levels deep. -/
theorem replaceOp_nestOp (ctx : Ctx) (reg : Registry) (m : Nat) (inner : LogicalOperator) :
    replaceOp ctx reg (nestOp m inner) = nestOp m (replaceOp ctx reg inner) := by
  induction m with
  | zero => rfl
  | succ m ih =>
    rw [nestOp, replaceOp, visitSlots, replaceChildren, replaceChildren, ih, nestOp]

/-! Claim theorems. -/

/-- C7: invoking the rewrite pass with an empty registry returns the plan
exactly as given — the same tree, hence structural equality of every node
and every type — through the early return of Optimize (lines 29-32). -/
theorem empty_registry_is_noop (ctx : Ctx) (plan : Option LogicalOperator) :
    optimize ctx [] plan = plan := rfl

/-- C8: registry round trip. After registering a mapped-to b the snapshot
maps a to b; re-registering the same key overwrites (last write wins per
key); after clear the snapshot is empty; both operations are total
functions, so neither can fail. -/
theorem registry_round_trip (r : Registry) (a b c k : String) :
    (r.register a b).find a = some b ∧
    ((r.register a b).register a c).find a = some c ∧
    (Registry.clear r).find k = none ∧
    Registry.clear r = [] := by
  refine ⟨?_, ?_, rfl, rfl⟩ <;> simp [Registry.register, Registry.find]

/-- C9: totality on degenerate inputs. A null operator pointer makes the
pass return immediately with no effect (lines 39-41), and a null
expression slot is skipped by the enumeration callback (lines 45-47). -/
theorem null_guards_total (ctx : Ctx) (reg : Registry) :
    replaceOperators ctx reg none = none ∧ visitSlot ctx reg none = none :=
  ⟨rfl, rfl⟩

/-- C10: the replacement name is resolved only under DEFAULT_SCHEMA of
the system catalog (lines 60-63); an entry that exists solely at some
other catalog-schema location is treated as not found and the call is
silently left unchanged. -/
theorem lookup_pinned_to_system_default_schema (ctx : Ctx) (reg : Registry)
    (f : ScalarFunction) (rt : LogicalType) (bi : Option Nat) (children : List Expr)
    (rn : String) (c s : String) (entry : CatalogEntry)
    (h1 : reg.find f.name = some rn)
    (h2 : ctx.catalogs ctx.systemCatalogName DEFAULT_SCHEMA rn = none)
    (h3 : (c, s) ≠ (ctx.systemCatalogName, DEFAULT_SCHEMA))
    (h4 : ctx.catalogs c s rn = some entry) :
    tryRewrite ctx reg (.call f rt bi children) = .call f rt bi children := by
  simp [tryRewrite, h1, h2]

/-- C10 witness: with custom_f living only under other_schema, the lookup
at the default schema misses and the sample call is unchanged. -/
theorem lookup_pinned_to_system_default_schema_witness :
    tryRewrite ctxOtherSchema regSample sampleCall = sampleCall :=
  lookup_pinned_to_system_default_schema ctxOtherSchema regSample origFn tDec15
    (some 99) [sampleArg] "custom_f" "system" "other_schema" repEntry
    (by rfl) (by rfl) (by decide) (by rfl)

/-- C2: expected misses leave the node untouched. With the name
registered, a missing catalog entry, an entry that is not a scalar
function, or a failing overload resolution (caught at line 123 before any
mutation) each leave the call node structurally unchanged; tryRewrite is
a total function, so no exception, panic, or error code crosses the
engine boundary in these cases. -/
theorem expected_misses_leave_node_untouched (ctx : Ctx) (reg : Registry)
    (f : ScalarFunction) (rt : LogicalType) (bi : Option Nat) (children : List Expr)
    (rn : String)
    (h1 : reg.find f.name = some rn) :
    (ctx.catalogs ctx.systemCatalogName DEFAULT_SCHEMA rn = none →
      tryRewrite ctx reg (.call f rt bi children) = .call f rt bi children) ∧
    (∀ entry, ctx.catalogs ctx.systemCatalogName DEFAULT_SCHEMA rn = some entry →
      entry.type ≠ CatalogType.SCALAR_FUNCTION_ENTRY →
      tryRewrite ctx reg (.call f rt bi children) = .call f rt bi children) ∧
    (∀ entry err, ctx.catalogs ctx.systemCatalogName DEFAULT_SCHEMA rn = some entry →
      ctx.resolve entry.functions (children.map Expr.returnType) = .error err →
      tryRewrite ctx reg (.call f rt bi children) = .call f rt bi children) := by
  refine ⟨fun h2 => by simp [tryRewrite, h1, h2], ?_, ?_⟩
  · intro entry h2 h3
    simp [tryRewrite, h1, h2, h3]
  · intro entry err h2 h4
    by_cases h3 : entry.type = CatalogType.SCALAR_FUNCTION_ENTRY
    · simp [tryRewrite, h1, h2, h3, h4]
    · simp [tryRewrite, h1, h2, h3]

/-- C2 witness: the three expected-miss situations evaluated on the
sample call: catalog miss, non-scalar entry, and no compatible overload;
each returns the call unchanged. -/
theorem expected_misses_leave_node_untouched_witness :
    tryRewrite ctxMiss regSample sampleCall = sampleCall ∧
    tryRewrite ctxWrongKind regSample sampleCall = sampleCall ∧
    tryRewrite ctxNoOverload regSample sampleCall = sampleCall :=
  ⟨(expected_misses_leave_node_untouched ctxMiss regSample origFn tDec15 (some 99)
      [sampleArg] "custom_f" (by rfl)).1 (by rfl),
   (expected_misses_leave_node_untouched ctxWrongKind regSample origFn tDec15 (some 99)
      [sampleArg] "custom_f" (by rfl)).2.1 tableEntry (by rfl) (by decide),
   (expected_misses_leave_node_untouched ctxNoOverload regSample origFn tDec15 (some 99)
      [sampleArg] "custom_f" (by rfl)).2.2 repEntry .noCompatibleOverload
      (by rfl) (by rfl)⟩

/-- C1: return-type mismatch triggers a compensating cast. When the
resolved replacement overload's declared return type differs from the
pre-rewrite return type, the slot the call occupied ends up holding a
type-conversion node targeting the original type, wrapping the new call
node (lines 119-122), so every ancestor still sees the type it was bound
against. -/
theorem compensating_cast_on_return_type_change (ctx : Ctx) (reg : Registry)
    (f : ScalarFunction) (rt : LogicalType) (bi : Option Nat) (children : List Expr)
    (rn : String) (entry : CatalogEntry) (rf : ScalarFunction) (nbi : Option Nat)
    (h1 : reg.find f.name = some rn)
    (h2 : ctx.catalogs ctx.systemCatalogName DEFAULT_SCHEMA rn = some entry)
    (h3 : entry.type = CatalogType.SCALAR_FUNCTION_ENTRY)
    (h4 : ctx.resolve entry.functions (children.map Expr.returnType) = .ok rf)
    (h5 : bindStep ctx rf (castChildren children rf.arguments) = .ok nbi)
    (h6 : rf.returnType ≠ rt) :
    tryRewrite ctx reg (.call f rt bi children) =
      Expr.cast rt (.call rf rf.returnType nbi (castChildren children rf.arguments)) := by
  rw [tryRewrite_ok ctx reg f rt bi children rn entry rf nbi h1 h2 h3 h4 h5]
  simp [Ne.symm h6]

/-- C1 witness: replacing g by custom_g changes the return type from
DECIMAL(15,2) to DECIMAL(18,4); the slot holds a cast back to
DECIMAL(15,2) wrapping the new call. -/
theorem compensating_cast_on_return_type_change_witness :
    tryRewrite ctxSample regSample sampleCallG =
      Expr.cast tDec15 (.call repG tDec18 none
        [.cast tDec18 (.const tDec15 1), .const tInt 2]) :=
  compensating_cast_on_return_type_change ctxSample regSample origG tDec15 none
    [.const tDec15 1, .const tInt 2] "custom_g" repGEntry repG none
    (by rfl) (by rfl) (by rfl) (by rfl) (by rfl) (by decide)

/-- C5: after a substitution that runs to completion, the call node's
bind-time state is exactly what the new descriptor's bind step produced:
null when the descriptor has no bind callback, and the callback's result
when it has one (lines 107-111); the original bind-time state bi does not
appear in the result, so the surviving state is consistent with the
node's current descriptor. -/
theorem bind_state_rederived_from_new_descriptor (ctx : Ctx) (reg : Registry)
    (f : ScalarFunction) (rt : LogicalType) (bi : Option Nat) (children : List Expr)
    (rn : String) (entry : CatalogEntry) (rf : ScalarFunction) (nbi : Option Nat)
    (h1 : reg.find f.name = some rn)
    (h2 : ctx.catalogs ctx.systemCatalogName DEFAULT_SCHEMA rn = some entry)
    (h3 : entry.type = CatalogType.SCALAR_FUNCTION_ENTRY)
    (h4 : ctx.resolve entry.functions (children.map Expr.returnType) = .ok rf)
    (h5 : bindStep ctx rf (castChildren children rf.arguments) = .ok nbi) :
    (rf.returnType = rt →
      tryRewrite ctx reg (.call f rt bi children) =
        .call rf rf.returnType nbi (castChildren children rf.arguments)) ∧
    (rf.returnType ≠ rt →
      tryRewrite ctx reg (.call f rt bi children) =
        Expr.cast rt (.call rf rf.returnType nbi (castChildren children rf.arguments))) ∧
    (rf.bind = none → nbi = none) ∧
    (∀ bid, rf.bind = some bid →
      ctx.bindImpl bid rf (castChildren children rf.arguments) = .ok nbi) := by
  refine ⟨?_, ?_, ?_, ?_⟩
  · intro h
    rw [tryRewrite_ok ctx reg f rt bi children rn entry rf nbi h1 h2 h3 h4 h5]
    simp [h]
  · intro h
    rw [tryRewrite_ok ctx reg f rt bi children rn entry rf nbi h1 h2 h3 h4 h5]
    simp [Ne.symm h]
  · intro hb
    simp only [bindStep, hb, Except.ok.injEq] at h5
    exact h5.symm
  · intro bid hb
    simpa only [bindStep, hb] using h5

/-- C5 witness: replacing f by custom_f invokes bind callback 7 on the
cast-adjusted argument and stores its result 42, discarding the original
bind state 99. -/
theorem bind_state_rederived_from_new_descriptor_witness :
    tryRewrite ctxSample regSample sampleCall =
      Expr.cast tDec15 (.call repFn tDec18 (some 42) [.cast tDec18 sampleArg]) ∧
    ctxSample.bindImpl 7 repFn [.cast tDec18 sampleArg] = .ok (some 42) := by
  have h := bind_state_rederived_from_new_descriptor ctxSample regSample origFn
    tDec15 (some 99) [sampleArg] "custom_f" repEntry repFn (some 42)
    (by rfl) (by rfl) (by rfl) (by rfl) (by rfl)
  exact ⟨h.2.1 (by decide), h.2.2.2 7 (by rfl)⟩

/-- C4: for every rewritten call and every argument position carrying
both a child and a declared parameter type, the child is wrapped in a
conversion node targeting the declared parameter type exactly when the
types differ, and left as-is when they are identical (lines 89-94); the
rewritten call node's children are exactly this cast-adjusted list. -/
theorem argument_casts_inserted_exactly_on_mismatch (ctx : Ctx) (reg : Registry)
    (f : ScalarFunction) (rt : LogicalType) (bi : Option Nat) (children : List Expr)
    (rn : String) (entry : CatalogEntry) (rf : ScalarFunction) (nbi : Option Nat)
    (i : Nat) (ci : Expr) (pi : LogicalType)
    (h1 : reg.find f.name = some rn)
    (h2 : ctx.catalogs ctx.systemCatalogName DEFAULT_SCHEMA rn = some entry)
    (h3 : entry.type = CatalogType.SCALAR_FUNCTION_ENTRY)
    (h4 : ctx.resolve entry.functions (children.map Expr.returnType) = .ok rf)
    (h5 : bindStep ctx rf (castChildren children rf.arguments) = .ok nbi)
    (hci : children.get? i = some ci)
    (hpi : rf.arguments.get? i = some pi) :
    (castChildren children rf.arguments).get? i =
      some (if ci.returnType ≠ pi then Expr.cast pi ci else ci) ∧
    tryRewrite ctx reg (.call f rt bi children) =
      (if rt ≠ rf.returnType then
        Expr.cast rt (.call rf rf.returnType nbi (castChildren children rf.arguments))
      else
        .call rf rf.returnType nbi (castChildren children rf.arguments)) :=
  ⟨castChildren_get children rf.arguments i ci pi hci hpi,
   tryRewrite_ok ctx reg f rt bi children rn entry rf nbi h1 h2 h3 h4 h5⟩

/-- C4 witness: in the g-to-custom_g rewrite, argument 0 (DECIMAL(15,2)
against declared DECIMAL(18,4)) is wrapped in a cast to DECIMAL(18,4),
while argument 1 (INTEGER against INTEGER) is inserted without any
conversion node. -/
theorem argument_casts_inserted_exactly_on_mismatch_witness :
    (castChildren [Expr.const tDec15 1, Expr.const tInt 2] repG.arguments).get? 0 =
      some (Expr.cast tDec18 (.const tDec15 1)) ∧
    (castChildren [Expr.const tDec15 1, Expr.const tInt 2] repG.arguments).get? 1 =
      some (Expr.const tInt 2) :=
  ⟨(argument_casts_inserted_exactly_on_mismatch ctxSample regSample origG tDec15
      none [.const tDec15 1, .const tInt 2] "custom_g" repGEntry repG none
      0 (.const tDec15 1) tDec18
      (by rfl) (by rfl) (by rfl) (by rfl) (by rfl) (by rfl) (by rfl)).1,
   (argument_casts_inserted_exactly_on_mismatch ctxSample regSample origG tDec15
      none [.const tDec15 1, .const tInt 2] "custom_g" repGEntry repG none
      1 (.const tInt 2) tInt
      (by rfl) (by rfl) (by rfl) (by rfl) (by rfl) (by rfl) (by rfl)).1⟩

/-- C3: evaluation of the code at the failing inputs. The catch-all at
line 123 spans the whole resolve-and-bind block, so an internal
catalog error raised by overload resolution is absorbed (the engine
returns normally with the node unchanged), and a failure thrown by the
replacement's bind callback is also absorbed — after the child casts and
the descriptor and return-type replacement were already applied in
place, leaving the node half rewritten with the original bind state 99
still attached to the new descriptor and no compensating outer cast. The
claim says both failures propagate to the caller; neither does. -/
theorem catch_all_absorbs_internal_and_bind_failures :
    tryRewrite ctxInternalErr regSample sampleCall = sampleCall ∧
    tryRewrite ctxBindFail regSample sampleCall =
      .call repFn tDec18 (some 99) [.cast tDec18 sampleArg] :=
  ⟨rfl, rfl⟩

/-- C6: recursion coverage. A registered call sitting n expression levels
deep inside unregistered wrapper calls, in the expression slot of an
operator m levels deep in the operator tree, is itself rewritten, with
the surrounding wrappers and operators untouched. -/
theorem nested_calls_rewritten_at_depth (ctx : Ctx) (reg : Registry)
    (f : ScalarFunction) (rt : LogicalType) (bi : Option Nat) (children : List Expr)
    (rn : String) (entry : CatalogEntry) (rf : ScalarFunction) (nbi : Option Nat)
    (w : ScalarFunction) (wt : LogicalType) (n m : Nat)
    (hw : reg.find w.name = none)
    (hargs : visitExprList ctx reg children = children)
    (h1 : reg.find f.name = some rn)
    (h2 : ctx.catalogs ctx.systemCatalogName DEFAULT_SCHEMA rn = some entry)
    (h3 : entry.type = CatalogType.SCALAR_FUNCTION_ENTRY)
    (h4 : ctx.resolve entry.functions (children.map Expr.returnType) = .ok rf)
    (h5 : bindStep ctx rf (castChildren children rf.arguments) = .ok nbi) :
    replaceOperators ctx reg
      (some (nestOp m (.mk [some (nestExpr w wt n (.call f rt bi children))] []))) =
    some (nestOp m (.mk [some (nestExpr w wt n
      (if rt ≠ rf.returnType then
        Expr.cast rt (.call rf rf.returnType nbi (castChildren children rf.arguments))
      else
        .call rf rf.returnType nbi (castChildren children rf.arguments)))] [])) := by
  have hinner : visitExpr ctx reg (Expr.call f rt bi children) =
      (if rt ≠ rf.returnType then
        Expr.cast rt (.call rf rf.returnType nbi (castChildren children rf.arguments))
      else
        .call rf rf.returnType nbi (castChildren children rf.arguments)) := by
    rw [visitExpr, hargs, tryRewrite_ok ctx reg f rt bi children rn entry rf nbi h1 h2 h3 h4 h5]
  rw [replaceOperators, replaceOp_nestOp, replaceOp, visitSlots, visitSlot,
    visitSlots, replaceChildren, visitExpr_nestExpr ctx reg w wt n _ hw, hinner]

/-- C6 witness: the sample call nested two expression levels deep and
three operator levels deep gets rewritten in place. -/
theorem nested_calls_rewritten_at_depth_witness :
    replaceOperators ctxSample regSample
      (some (nestOp 3 (.mk [some (nestExpr wrapFn tDec15 2 sampleCall)] []))) =
    some (nestOp 3 (.mk [some (nestExpr wrapFn tDec15 2
      (Expr.cast tDec15 (.call repFn tDec18 (some 42) [.cast tDec18 sampleArg])))] [])) :=
  nested_calls_rewritten_at_depth ctxSample regSample origFn tDec15 (some 99)
    [sampleArg] "custom_f" repEntry repFn (some 42) wrapFn tDec15 2 3
    (by rfl) (by rfl) (by rfl) (by rfl) (by rfl) (by rfl) (by rfl)

end OperatorReplacement
